import Mathlib

/-!
Verification of the Webtop portal client (`webtop/client.py`).

The client is embedded shallowly: JSON values are an inductive type with
Python-truthiness, the HTTP transport is a pure function from requests to
responses (the "server"), and each client coroutine becomes a pure function
from a client state to an outcome, a new client state, and the list of HTTP
requests it issued.
-/

namespace Webtop

/-- JSON values as Python's `json` module decodes them (numbers restricted to
integers, which is all this client ever sends). -/
inductive Json where
  | null : Json
  | bool : Bool → Json
  | num : Int → Json
  | str : String → Json
  | arr : List Json → Json
  | obj : List (String × Json) → Json
  deriving Repr

/-- Python truthiness (`bool(x)`) of a decoded JSON value. -/
def truthy : Json → Bool
  | .null => false
  | .bool b => b
  | .num n => n != 0
  | .str s => s != ""
  | .arr xs => !xs.isEmpty
  | .obj fs => !fs.isEmpty

/-- Python `d.get(k)` on a dict: the value, or `None` (modelled `.null`) when
the key is absent. -/
def dictGet (fs : List (String × Json)) (k : String) : Json :=
  (fs.lookup k).getD Json.null

mutual

/-- Python `repr` of a decoded JSON value, as used in the client's
`status=false` error message. -/
def pyRepr : Json → String
  | .null => "None"
  | .bool b => if b then "True" else "False"
  | .num n => toString n
  | .str s => "'" ++ s ++ "'"
  | .arr xs => "[" ++ pyReprItems xs ++ "]"
  | .obj fs => "\x7b" ++ pyReprFields fs ++ "\x7d"

/-- Comma-separated `repr` of list items. -/
def pyReprItems : List Json → String
  | [] => ""
  | [x] => pyRepr x
  | x :: xs => pyRepr x ++ ", " ++ pyReprItems xs

/-- Comma-separated `repr` of dict entries. -/
def pyReprFields : List (String × Json) → String
  | [] => ""
  | [(k, v)] => "'" ++ k ++ "': " ++ pyRepr v
  | (k, v) :: xs => "'" ++ k ++ "': " ++ pyRepr v ++ ", " ++ pyReprFields xs

end

/-- The ways a client call can terminate abnormally. `loginError` models
`WebtopLoginError` and `requestError` models `WebtopRequestError`
(modelled from the spec: the two error kinds live in `webtop/exceptions.py`,
which only `client.py` shows being raised); `attributeError` models an
uncaught Python `AttributeError` (calling `.get` on a non-dict), and
`jsonError` an uncaught `resp.json()` decode failure in an endpoint
wrapper. -/
inductive PyError where
  | loginError (msg : String)
  | requestError (msg : String)
  | attributeError (msg : String)
  | jsonError (msg : String)
  deriving Repr

/-- An HTTP request as the transport sends it: method, path, caller headers,
JSON body, and the cookie jar attached at send time. -/
structure HttpRequest where
  method : String
  path : String
  headers : List (String × String)
  body : Json
  cookies : List (String × Json)
  deriving Repr

/-- An HTTP response: status code, raw text, and the parsed JSON body
(`none` when the body does not parse as JSON). -/
structure HttpResponse where
  status_code : Nat
  text : String
  json : Option Json
  deriving Repr

/-- The environment: a pure model of the portal, mapping each request the
transport sends to the response it returns. -/
abbrev Server := HttpRequest → HttpResponse

/-- The client configuration fixed at `__init__` (`client.py` lines 22-50). -/
structure Config where
  username : String
  password : String
  data : String
  remember_me : Bool
  biometric_login : String
  base_url : String
  timeout : Rat
  auto_login : Bool
  deriving Repr

/-- Modelled from the spec: `WebtopSession` lives in `webtop/models.py`,
absent from the sources; its fields are those `client.py` constructs at
login (token, user id, student id, school id, school name, first/last name,
raw login payload), all loosely typed JSON values. -/
structure WebtopSession where
  token : Json
  user_id : Json
  student_id : Json
  school_id : Json
  school_name : Json
  first_name : Json
  last_name : Json
  raw_login_data : Json
  deriving Repr

/-- Mutable client state: the immutable configuration, the transport's
cookie jar, and the optional session. -/
structure ClientState where
  config : Config
  cookies : List (String × Json)
  session : Option WebtopSession
  deriving Repr

/-- `httpx.Cookies.set`: replace any cookie of this name. -/
def cookieSet (jar : List (String × Json)) (name : String) (v : Json) :
    List (String × Json) :=
  (jar.filter (fun p => p.1 != name)) ++ [(name, v)]

/-- Look a cookie up in the jar. -/
def cookieLookup (jar : List (String × Json)) (name : String) : Option Json :=
  jar.lookup name

/-- Python `base_url.rstrip("/")`. -/
def rstripSlash (s : String) : String :=
  String.mk ((s.toList.reverse.dropWhile (fun c => c = '/')).reverse)

def DEFAULT_BASE_URL : String := "https://webtopserver.smartschool.co.il"

/-- `WebtopClient.__init__`: store the configuration (base URL with trailing
slashes stripped), an empty cookie jar, and no session. Defaults are the
source's. -/
def mkClient (username : String) (password : String)
    (data : String := "+Aabe7FAdVluG6Lu+0ibrA==")
    (remember_me : Bool := false) (biometric_login : String := "")
    (base_url : String := DEFAULT_BASE_URL) (timeout : Rat := 20)
    (auto_login : Bool := true) : ClientState :=
  { config :=
      { username := username, password := password, data := data
        remember_me := remember_me, biometric_login := biometric_login
        base_url := rstripSlash base_url, timeout := timeout
        auto_login := auto_login }
    cookies := []
    session := none }

/-- Outcome of running one client coroutine: its return value or error, the
client state afterwards, and the HTTP requests it issued, in order. -/
structure RunResult (α : Type) where
  outcome : Except PyError α
  state : ClientState
  calls : List HttpRequest
  deriving Repr

/-- The JSON body `login()` posts (`client.py` lines 77-83). -/
def loginBody (cfg : Config) : Json :=
  .obj [("UserName", .str cfg.username), ("Password", .str cfg.password),
        ("Data", .str cfg.data), ("RememberMe", .bool cfg.remember_me),
        ("BiometricLogin", .str cfg.biometric_login)]

/-- The request `login()` sends, with the current cookie jar attached. -/
def loginRequest (st : ClientState) : HttpRequest :=
  { method := "POST", path := "/server/api/user/LoginByUserNameAndPassword",
    headers := [], body := loginBody st.config, cookies := st.cookies }

/-- Python `a or b` on decoded JSON values (`client.py` line 100 uses it as
`body.get("data") or \x7b\x7d`). -/
def pyOr (a b : Json) : Json :=
  if truthy a then a else b

/-- `WebtopClient.login` (`client.py` lines 71-118): post the credentials;
fail on HTTP status ≥ 400, a non-JSON body, a `status` field that is not
literally `True`, or a falsy `data.token`; calling `.get` on a non-dict body
(or a truthy non-dict `data`) is an uncaught `AttributeError`. On success,
set cookie `webToken` and store a fresh session built from `data`. -/
def login (server : Server) (st : ClientState) : RunResult WebtopSession :=
  let req := loginRequest st
  let resp := server req
  let fail : PyError → RunResult WebtopSession := fun e =>
    { outcome := .error e, state := st, calls := [req] }
  if 400 ≤ resp.status_code then
    fail (.loginError ("Login failed (" ++ toString resp.status_code ++ "): "
      ++ resp.text))
  else
    match resp.json with
    | none => fail (.loginError "Login response is not JSON")
    | some (.obj bf) =>
      match dictGet bf "status" with
      | .bool true =>
        let data := pyOr (dictGet bf "data") (Json.obj [])
        match data with
        | .obj dfs =>
          let token := dictGet dfs "token"
          if !truthy token then
            fail (.loginError "Login succeeded but data.token is missing")
          else
            let sess : WebtopSession :=
              { token := token
                user_id := dictGet dfs "userId"
                student_id := dictGet dfs "studentId"
                school_id := dictGet dfs "schoolId"
                school_name := dictGet dfs "schoolName"
                first_name := dictGet dfs "firstName"
                last_name := dictGet dfs "lastName"
                raw_login_data := data }
            { outcome := .ok sess
              state := { st with
                cookies := cookieSet st.cookies "webToken" token
                session := some sess }
              calls := [req] }
        | _ => fail (.attributeError "data.get: data is not a dict")
      | _ =>
        fail (.loginError ("Login returned status=false. errorDescription="
          ++ pyRepr (dictGet bf "errorDescription") ++ ", errorId="
          ++ pyRepr (dictGet bf "errorId")))
    | some _ => fail (.attributeError "body.get: body is not a dict")

/-- `WebtopClient.ensure_logged_in` (`client.py` lines 120-125): a no-op with
a session; `WebtopLoginError` without one when auto-login is off; otherwise a
single inline `login()`. -/
def ensure_logged_in (server : Server) (st : ClientState) : RunResult Unit :=
  match st.session with
  | some _ => { outcome := .ok (), state := st, calls := [] }
  | none =>
    if !st.config.auto_login then
      { outcome := .error (.loginError
          "Not logged in and auto_login=False. Call await client.login()."),
        state := st, calls := [] }
    else
      let r := login server st
      { outcome := r.outcome.map (fun _ => ()), state := r.state,
        calls := r.calls }

/-- `WebtopClient.request` (`client.py` lines 127-150): ensure a session,
send the request with the caller's headers and the cookie jar, and raise
`WebtopRequestError` on status ≥ 400. -/
def request (server : Server) (st : ClientState) (method path : String)
    (headers : List (String × String)) (body : Json) :
    RunResult HttpResponse :=
  let e := ensure_logged_in server st
  match e.outcome with
  | .error err => { outcome := .error err, state := e.state, calls := e.calls }
  | .ok _ =>
    let req : HttpRequest :=
      { method := method, path := path, headers := headers, body := body,
        cookies := e.state.cookies }
    let resp := server req
    if 400 ≤ resp.status_code then
      { outcome := .error (.requestError (method ++ " " ++ path ++ " failed ("
          ++ toString resp.status_code ++ "): " ++ resp.text)),
        state := e.state, calls := e.calls ++ [req] }
    else
      { outcome := .ok resp, state := e.state, calls := e.calls ++ [req] }

/-- `resp.json()` as every endpoint wrapper performs it on the response
`request` returned; a body that does not parse is an uncaught decode
error. -/
def respJson (r : RunResult HttpResponse) : RunResult Json :=
  match r.outcome with
  | .error e => { outcome := .error e, state := r.state, calls := r.calls }
  | .ok resp =>
    match resp.json with
    | some j => { outcome := .ok j, state := r.state, calls := r.calls }
    | none =>
      { outcome := .error (.jsonError "response body is not JSON"),
        state := r.state, calls := r.calls }

/-- `WebtopClient.get_students` (`client.py` lines 155-166). -/
def get_students (server : Server) (st : ClientState) : RunResult Json :=
  respJson (request server st "POST" "/server/api/dashboard/InitDashboard"
    [] (.obj []))

/-- `WebtopClient.get_homework` (`client.py` lines 168-197). -/
def get_homework (server : Server) (st : ClientState)
    (encrypted_student_id : String) (class_code class_number : Int) :
    RunResult Json :=
  respJson (request server st "POST" "/server/api/dashboard/GetHomeWork" []
    (.obj [("id", .str encrypted_student_id),
           ("ClassCode", .num class_code),
           ("ClassNumber", .num class_number)]))

/-- `WebtopClient.get_discipline_events` (`client.py` lines 199-225). -/
def get_discipline_events (server : Server) (st : ClientState)
    (encrypted_student_id : String) (class_code : Int) : RunResult Json :=
  respJson (request server st "POST"
    "/server/api/dashboard/GetPupilDiciplineEvents" []
    (.obj [("id", .str encrypted_student_id),
           ("ClassCode", .num class_code)]))

/-- `WebtopClient.get_preview_unread_notifications` (`client.py` lines
227-241). -/
def get_preview_unread_notifications (server : Server) (st : ClientState) :
    RunResult Json :=
  respJson (request server st "POST"
    "/server/api/Menu/GetPreviewUnreadNotifications" [] (.obj []))

/-- `WebtopClient.get_notification_settings` (`client.py` lines 243-266). -/
def get_notification_settings (server : Server) (st : ClientState)
    (encrypted_student_id : String) : RunResult Json :=
  respJson (request server st "POST"
    "/server/api/Notification/GetNotificationsSettings" []
    (.obj [("id", .str encrypted_student_id)]))

/-- Python `True`/`False`/`None` of the optional `has_read` filter. -/
def optBoolJson : Option Bool → Json
  | some b => .bool b
  | none => .null

/-- `WebtopClient.get_messages_inbox` (`client.py` lines 268-300), with the
source's default arguments. -/
def get_messages_inbox (server : Server) (st : ClientState)
    (page_id : Int := 1) (label_id : Int := 0)
    (has_read : Option Bool := none) (search_query : String := "") :
    RunResult Json :=
  respJson (request server st "POST"
    "/server/api/messageBox/GetMessagesInbox" []
    (.obj [("PageId", .num page_id),
           ("LabelId", .num label_id),
           ("HasRead", optBoolJson has_read),
           ("SearchQuery", .str search_query)]))

/-- `WebtopClient.get_pupil_schedule` (`client.py` lines 302-340), with the
source's default arguments. -/
def get_pupil_schedule (server : Server) (st : ClientState)
    (study_year : Int) (encrypted_student_id : String) (class_code : Int)
    (week_index : Int := 0) (view_type : Int := 0) (module_id : Int := 10) :
    RunResult Json :=
  respJson (request server st "POST" "/server/api/PupilCard/GetPupilScheduale"
    []
    (.obj [("weekIndex", .num week_index),
           ("viewType", .num view_type),
           ("studyYear", .num study_year),
           ("studentID", .str encrypted_student_id),
           ("classCode", .num class_code),
           ("moduleID", .num module_id)]))

/-- One client operation: `login`, `ensure_logged_in`, the generic `request`
helper, or any endpoint wrapper, with its arguments. -/
inductive Op where
  | loginOp
  | ensureOp
  | requestOp (method path : String) (headers : List (String × String))
      (body : Json)
  | studentsOp
  | homeworkOp (esid : String) (class_code class_number : Int)
  | disciplineOp (esid : String) (class_code : Int)
  | previewNotificationsOp
  | notificationSettingsOp (esid : String)
  | messagesInboxOp (page_id label_id : Int) (has_read : Option Bool)
      (search_query : String)
  | pupilScheduleOp (study_year : Int) (esid : String)
      (class_code week_index view_type module_id : Int)

/-- The client state after one operation (its return value discarded; a
raised error leaves the state the operation ended in). -/
def stepOp (server : Server) (op : Op) (st : ClientState) : ClientState :=
  match op with
  | .loginOp => (login server st).state
  | .ensureOp => (ensure_logged_in server st).state
  | .requestOp m p h b => (request server st m p h b).state
  | .studentsOp => (get_students server st).state
  | .homeworkOp e c n => (get_homework server st e c n).state
  | .disciplineOp e c => (get_discipline_events server st e c).state
  | .previewNotificationsOp =>
      (get_preview_unread_notifications server st).state
  | .notificationSettingsOp e => (get_notification_settings server st e).state
  | .messagesInboxOp p l h q => (get_messages_inbox server st p l h q).state
  | .pupilScheduleOp y e c w v m =>
      (get_pupil_schedule server st y e c w v m).state

/-- The client state after a sequence of operations. -/
def runOps (server : Server) (ops : List Op) (st : ClientState) :
    ClientState :=
  match ops with
  | [] => st
  | op :: rest => runOps server rest (stepOp server op st)

/-- Whether an outcome is a normal return. -/
def isOk {α : Type} : Except PyError α → Bool
  | .ok _ => true
  | .error _ => false

/-- Whether an outcome is a raised `WebtopLoginError`. -/
def isLoginErr {α : Type} : Except PyError α → Bool
  | .error (.loginError _) => true
  | _ => false

/-- Whether the second character list starts the first. -/
def leadsWith : List Char → List Char → Bool
  | _, [] => true
  | [], _ :: _ => false
  | h :: hs, n :: ns => h == n && leadsWith hs ns

/-- Whether the second character list occurs inside the first. -/
def occursIn : List Char → List Char → Bool
  | [], n => n.isEmpty
  | h :: hs, n => leadsWith (h :: hs) n || occursIn hs n

/-- Whether `needle` occurs in `hay` (a message "mentions" a word). -/
def containsSub (hay needle : String) : Bool :=
  occursIn hay.toList needle.toList

/-- The session-token invariant: any stored session has a Python-truthy
token. -/
def tokenInvB (st : ClientState) : Bool :=
  match st.session with
  | none => true
  | some s => truthy s.token

/-- Whether the stored session's token is a non-empty JSON string. -/
def tokenIsNonemptyStr (st : ClientState) : Bool :=
  match st.session with
  | some s =>
    match s.token with
    | .str t => t != ""
    | _ => false
  | none => false

/-- The `data` object of a successful test login response. -/
def dataGood : List (String × Json) :=
  [("token", .str "T1"), ("userId", .str "U1"),
   ("firstName", .str "Jane"), ("lastName", .str "Doe")]

/-- A successful login response body. -/
def bodyGood : Json :=
  .obj [("status", .bool true), ("data", .obj dataGood)]

/-- A portal that answers every request with HTTP 200 and `bodyGood`. -/
def goodServer : Server := fun _ =>
  { status_code := 200, text := "ok", json := some bodyGood }

/-- A freshly constructed client (all configuration defaults). -/
def stFresh : ClientState := mkClient "user" "pw"

/-- The session `goodServer`'s login data produces. -/
def sessA : WebtopSession :=
  { token := .str "T1", user_id := .str "U1", student_id := .null,
    school_id := .null, school_name := .null, first_name := .str "Jane",
    last_name := .str "Doe", raw_login_data := .obj dataGood }

/-- A client that has logged in against `goodServer`. -/
def stLogged : ClientState :=
  { config := stFresh.config, cookies := [("webToken", .str "T1")],
    session := some sessA }

/-- A portal whose login response carries `status: true` but an empty-string
token. -/
def srvTokenEmpty : Server := fun _ =>
  ⟨200, "", some (.obj [("status", .bool true),
                        ("data", .obj [("token", .str "")])])⟩

/-- A portal whose login response body is a JSON array, not an object. -/
def srvArrBody : Server := fun _ => ⟨200, "[1]", some (.arr [.num 1])⟩

/-- A portal answering HTTP 301 with an otherwise perfect login body. -/
def srv301 : Server := fun _ => ⟨301, "moved", some bodyGood⟩

/-- A portal answering HTTP 500 with a non-JSON error page. -/
def srv500 : Server := fun _ => ⟨500, "Server Error", none⟩

/-- A portal whose login response carries a numeric (truthy, non-string)
token. -/
def srvTokenNum : Server := fun _ =>
  ⟨200, "", some (.obj [("status", .bool true),
                        ("data", .obj [("token", .num 5)])])⟩

/-- `login()` always issues exactly the one login request. -/
theorem login_calls (server : Server) (st : ClientState) :
    (login server st).calls = [loginRequest st] := by
  unfold login
  dsimp only
  repeat' split <;> try rfl

/-- `login()` either fails leaving the state untouched, or returns a session
with a truthy token, stores it, and sets the `webToken` cookie. -/
theorem login_char (server : Server) (st : ClientState) :
    (isOk (login server st).outcome = false ∧ (login server st).state = st) ∨
    (∃ sess, (login server st).outcome = .ok sess ∧
       (login server st).state
         = { st with cookies := cookieSet st.cookies "webToken" sess.token,
                     session := some sess } ∧
       truthy sess.token = true) := by
  unfold login
  dsimp only
  repeat' first
  | exact .inl ⟨rfl, rfl⟩
  | split
  all_goals refine .inr ⟨_, rfl, rfl, ?_⟩
  all_goals simp_all

/-- A failed `login()` leaves the client state exactly as it was. -/
theorem login_state_of_error (server : Server) (st : ClientState)
    (h : isOk (login server st).outcome = false) :
    (login server st).state = st := by
  rcases login_char server st with ⟨_, hst⟩ | ⟨s, ho, _, _⟩
  · exact hst
  · rw [ho] at h
    simp [isOk] at h

/-- A successful `login()` stores the returned session and its token
cookie; the token is truthy. -/
theorem login_ok_state (server : Server) (st : ClientState)
    (sess : WebtopSession) (h : (login server st).outcome = .ok sess) :
    (login server st).state
      = { st with cookies := cookieSet st.cookies "webToken" sess.token,
                  session := some sess }
      ∧ truthy sess.token = true := by
  rcases login_char server st with ⟨hok, _⟩ | ⟨s, ho, hst, htr⟩
  · rw [h] at hok
    simp [isOk] at hok
  · obtain rfl : s = sess := by
      have hss := ho.symm.trans h
      exact (Except.ok.injEq _ _).mp hss
    exact ⟨hst, htr⟩

/-- `login()` never changes the configuration, and either leaves the session
alone or stores a session with a truthy token. -/
theorem login_config_session (server : Server) (st : ClientState) :
    ((login server st).state.config = st.config) ∧
    ((login server st).state.session = st.session ∨
      ∃ s, (login server st).state.session = some s
        ∧ truthy s.token = true) := by
  rcases login_char server st with ⟨_, hst⟩ | ⟨s, _, hst, htr⟩
  · rw [hst]
    exact ⟨rfl, .inl rfl⟩
  · rw [hst]
    exact ⟨rfl, .inr ⟨s, rfl, htr⟩⟩

/-- With a session in place, `ensure_logged_in` returns at once: no state
change and no network call. -/
theorem ensure_some_noop (server : Server) (st : ClientState)
    (s : WebtopSession) (h : st.session = some s) :
    ensure_logged_in server st = ⟨.ok (), st, []⟩ := by
  unfold ensure_logged_in
  rw [h]

/-- `ensure_logged_in` leaves the state alone or hands it to `login`. -/
theorem ensure_state_cases (server : Server) (st : ClientState) :
    (ensure_logged_in server st).state = st ∨
    (ensure_logged_in server st).state = (login server st).state := by
  unfold ensure_logged_in
  dsimp only
  split
  · exact .inl rfl
  · split
    · exact .inl rfl
    · exact .inr rfl

/-- `ensure_logged_in` never changes the configuration, and either leaves
the session alone or stores a session with a truthy token. -/
theorem ensure_config_session (server : Server) (st : ClientState) :
    ((ensure_logged_in server st).state.config = st.config) ∧
    ((ensure_logged_in server st).state.session = st.session ∨
      ∃ s, (ensure_logged_in server st).state.session = some s
        ∧ truthy s.token = true) := by
  rcases ensure_state_cases server st with h | h
  · rw [h]
    exact ⟨rfl, .inl rfl⟩
  · rw [h]
    exact login_config_session server st

/-- The state after `request` is the state after its `ensure_logged_in`. -/
theorem request_state_eq (server : Server) (st : ClientState)
    (m p : String) (hd : List (String × String)) (b : Json) :
    (request server st m p hd b).state = (ensure_logged_in server st).state := by
  unfold request
  dsimp only
  repeat' first
  | rfl
  | split

/-- `request` never changes the configuration, and either leaves the session
alone or stores a session with a truthy token. -/
theorem request_config_session (server : Server) (st : ClientState)
    (m p : String) (hd : List (String × String)) (b : Json) :
    ((request server st m p hd b).state.config = st.config) ∧
    ((request server st m p hd b).state.session = st.session ∨
      ∃ s, (request server st m p hd b).state.session = some s
        ∧ truthy s.token = true) := by
  rw [request_state_eq]
  exact ensure_config_session server st

/-- Deserializing the response does not touch the client state. -/
theorem respJson_state (r : RunResult HttpResponse) :
    (respJson r).state = r.state := by
  unfold respJson
  repeat' first
  | rfl
  | split

/-- With a session in place, `request` sends exactly one request, carrying
the current cookie jar. -/
theorem request_calls_of_some (server : Server) (st : ClientState)
    (s : WebtopSession) (m p : String) (hd : List (String × String))
    (b : Json) (h : st.session = some s) :
    (request server st m p hd b).calls
      = [⟨m, p, hd, b, st.cookies⟩] := by
  unfold request
  rw [ensure_some_noop server st s h]
  dsimp only
  split <;> rfl

/-- The `webToken` cookie just set is the one the jar now yields. -/
theorem cookieLookup_set (jar : List (String × Json)) (n : String)
    (v : Json) : cookieLookup (cookieSet jar n v) n = some v := by
  induction jar with
  | nil => simp [cookieLookup, cookieSet, List.lookup]
  | cons p rest ih =>
    rcases p with ⟨k, w⟩
    by_cases h : k = n
    · subst h
      simpa [cookieSet, cookieLookup, List.filter] using ih
    · simp only [cookieSet, cookieLookup, List.filter] at *
      rw [show (k != n) = true by simp [h]]
      simpa [List.lookup, show (n == k) = false by simp [Ne.symm h]] using ih

/-- No operation changes the configuration; each either leaves the session
alone or stores a session with a truthy token. -/
theorem stepOp_config_session (server : Server) (op : Op) (st : ClientState) :
    ((stepOp server op st).config = st.config) ∧
    ((stepOp server op st).session = st.session ∨
      ∃ s, (stepOp server op st).session = some s
        ∧ truthy s.token = true) := by
  cases op <;>
    simp only [stepOp, get_students, get_homework, get_discipline_events,
      get_preview_unread_notifications, get_notification_settings,
      get_messages_inbox, get_pupil_schedule, respJson_state] <;>
    first
    | exact login_config_session server st
    | exact ensure_config_session server st
    | exact request_config_session server st _ _ _ _

/-- Once a session exists, it exists after any further operation. -/
theorem runOps_session_isSome (server : Server) (ops : List Op)
    (st : ClientState) (h : st.session.isSome = true) :
    (runOps server ops st).session.isSome = true := by
  induction ops generalizing st with
  | nil => exact h
  | cons op rest ih =>
    show (runOps server rest (stepOp server op st)).session.isSome = true
    apply ih
    rcases (stepOp_config_session server op st).2 with heq | ⟨s, hs, _⟩
    · rw [heq]
      exact h
    · rw [hs]
      rfl

/-- The truthy-token invariant is preserved by any sequence of operations. -/
theorem runOps_tokenInv (server : Server) (ops : List Op)
    (st : ClientState) (h : tokenInvB st = true) :
    tokenInvB (runOps server ops st) = true := by
  induction ops generalizing st with
  | nil => exact h
  | cons op rest ih =>
    show tokenInvB (runOps server rest (stepOp server op st)) = true
    apply ih
    rcases (stepOp_config_session server op st).2 with heq | ⟨s, hs, htr⟩
    · unfold tokenInvB at *
      rw [heq]
      exact h
    · unfold tokenInvB
      rw [hs]
      exact htr

/-- An authenticated `request` receiving status ≥ 400 raises
`WebtopRequestError` with method, path, status and body in the message,
after exactly one request, leaving the state unchanged. -/
theorem request_err (server : Server) (st : ClientState)
    (s : WebtopSession) (m p : String) (hd : List (String × String))
    (b : Json) (hs : st.session = some s)
    (hc : 400 ≤ (server ⟨m, p, hd, b, st.cookies⟩).status_code) :
    request server st m p hd b
      = ⟨.error (.requestError (m ++ " " ++ p ++ " failed ("
          ++ toString (server ⟨m, p, hd, b, st.cookies⟩).status_code
          ++ "): " ++ (server ⟨m, p, hd, b, st.cookies⟩).text)),
         st, [⟨m, p, hd, b, st.cookies⟩]⟩ := by
  unfold request
  rw [ensure_some_noop server st s hs]
  dsimp only
  rw [if_pos hc]
  rfl

/-- An authenticated `request` receiving status < 400 returns the raw
response, after exactly one request, leaving the state unchanged. -/
theorem request_ok (server : Server) (st : ClientState)
    (s : WebtopSession) (m p : String) (hd : List (String × String))
    (b : Json) (hs : st.session = some s)
    (hc : (server ⟨m, p, hd, b, st.cookies⟩).status_code < 400) :
    request server st m p hd b
      = ⟨.ok (server ⟨m, p, hd, b, st.cookies⟩), st,
         [⟨m, p, hd, b, st.cookies⟩]⟩ := by
  unfold request
  rw [ensure_some_noop server st s hs]
  dsimp only
  rw [if_neg (Nat.not_le.mpr hc)]
  rfl

/-- A 2xx/3xx login response parsing to an object with `status` literally
true, whose effective `data` dict has a falsy token, yields the
token-missing `LoginError`. -/
theorem login_token_missing (server : Server) (st : ClientState)
    (bf : List (String × Json))
    (h1 : (server (loginRequest st)).status_code < 400)
    (h2 : (server (loginRequest st)).json = some (.obj bf))
    (h3 : dictGet bf "status" = .bool true)
    (h5 : ∃ dfs, pyOr (dictGet bf "data") (Json.obj []) = .obj dfs)
    (h4 : ∀ dfs, pyOr (dictGet bf "data") (Json.obj []) = .obj dfs →
            truthy (dictGet dfs "token") = false) :
    (login server st).outcome
      = .error (.loginError "Login succeeded but data.token is missing") := by
  unfold login
  dsimp only
  rw [if_neg (Nat.not_le.mpr h1), h2]
  dsimp only
  rw [h3]
  dsimp only
  split
  · rename_i dfs hmatch
    rw [h4 dfs hmatch]
    rfl
  · rename_i hnot
    rcases h5 with ⟨dfs0, h5⟩
    exact absurd h5 (hnot dfs0)

/-- C3 (amended): a login response with HTTP status ≥ 400 makes `login()`
raise `LoginError` carrying the status code and body, issuing exactly the
one request and leaving the state unchanged; statuses below 400 (3xx
included) are not, by themselves, an error. -/
theorem C3_login_http_ge400_loginError (server : Server) (st : ClientState)
    (h : 400 ≤ (server (loginRequest st)).status_code) :
    login server st
      = ⟨.error (.loginError ("Login failed ("
          ++ toString (server (loginRequest st)).status_code ++ "): "
          ++ (server (loginRequest st)).text)), st, [loginRequest st]⟩ := by
  unfold login
  dsimp only
  rw [if_pos h]

/-- Witness for C3's theorem at a concrete 500 response. -/
theorem C3_witness :
    400 ≤ (srv500 (loginRequest stFresh)).status_code
    ∧ login srv500 stFresh
      = ⟨.error (.loginError "Login failed (500): Server Error"), stFresh,
         [loginRequest stFresh]⟩ :=
  ⟨by decide, C3_login_http_ge400_loginError srv500 stFresh (by decide)⟩

/-- C3 as stated is false: a 301 (non-2xx) response with a well-formed login
body makes `login()` succeed, not raise `LoginError`. -/
theorem C3_counterexample :
    (srv301 (loginRequest stFresh)).status_code = 301
    ∧ isOk (login srv301 stFresh).outcome = true
    ∧ isLoginErr (login srv301 stFresh).outcome = false :=
  ⟨rfl, rfl, rfl⟩

/-- C4 (confirmed): with a session, `ensure_logged_in` is a no-op with zero
network calls; with no session and auto-login off it raises `LoginError`
with zero network calls; with no session and auto-login on it performs
exactly one inline `login()`, propagating its outcome, state and single
request. -/
theorem C4_ensure_logged_in_behavior :
    (∀ (server : Server) (st : ClientState) (s : WebtopSession),
      st.session = some s → ensure_logged_in server st = ⟨.ok (), st, []⟩) ∧
    (∀ (server : Server) (st : ClientState),
      st.session = none → st.config.auto_login = false →
        ensure_logged_in server st
          = ⟨.error (.loginError
              "Not logged in and auto_login=False. Call await client.login()."),
             st, []⟩) ∧
    (∀ (server : Server) (st : ClientState),
      st.session = none → st.config.auto_login = true →
        ensure_logged_in server st
          = ⟨(login server st).outcome.map (fun _ => ()),
             (login server st).state, (login server st).calls⟩
        ∧ (login server st).calls = [loginRequest st]) := by
  refine ⟨ensure_some_noop, ?_, ?_⟩
  · intro server st h1 h2
    simp [ensure_logged_in, h1, h2]
  · intro server st h1 h2
    constructor
    · simp [ensure_logged_in, h1, h2]
    · exact login_calls server st

/-- Witness for C4's theorem: a logged-in client, any portal. -/
theorem C4_witness :
    stLogged.session = some sessA
    ∧ ensure_logged_in goodServer stLogged = ⟨.ok (), stLogged, []⟩ :=
  ⟨rfl, C4_ensure_logged_in_behavior.1 goodServer stLogged sessA rfl⟩

/-- C5 (confirmed): on an authenticated call, a response with status ≥ 400
raises `RequestError` whose message carries the method, path, status code
and raw body, after exactly one request and with the state unchanged; a
status < 400 returns the raw response, equally with exactly one request. -/
theorem C5_request_error_handling (server : Server) (st : ClientState)
    (s : WebtopSession) (m p : String) (hd : List (String × String))
    (b : Json) (hs : st.session = some s) :
    (400 ≤ (server ⟨m, p, hd, b, st.cookies⟩).status_code →
      request server st m p hd b
        = ⟨.error (.requestError (m ++ " " ++ p ++ " failed ("
            ++ toString (server ⟨m, p, hd, b, st.cookies⟩).status_code
            ++ "): " ++ (server ⟨m, p, hd, b, st.cookies⟩).text)),
           st, [⟨m, p, hd, b, st.cookies⟩]⟩) ∧
    ((server ⟨m, p, hd, b, st.cookies⟩).status_code < 400 →
      request server st m p hd b
        = ⟨.ok (server ⟨m, p, hd, b, st.cookies⟩), st,
           [⟨m, p, hd, b, st.cookies⟩]⟩) := by
  exact ⟨request_err server st s m p hd b hs,
         request_ok server st s m p hd b hs⟩

/-- Witness for C5's theorem at a concrete 500 response. -/
theorem C5_witness :
    stLogged.session = some sessA
    ∧ 400 ≤ (srv500 ⟨"POST", "/server/api/dashboard/InitDashboard", [],
        .obj [], stLogged.cookies⟩).status_code
    ∧ request srv500 stLogged "POST" "/server/api/dashboard/InitDashboard"
        [] (.obj [])
      = ⟨.error (.requestError
          "POST /server/api/dashboard/InitDashboard failed (500): Server Error"),
         stLogged,
         [⟨"POST", "/server/api/dashboard/InitDashboard", [], .obj [],
           stLogged.cookies⟩]⟩ :=
  ⟨rfl, by decide,
    (C5_request_error_handling srv500 stLogged sessA _ _ _ _ rfl).1
      (by decide)⟩

/-- C7 (confirmed): every operation leaves the session unchanged or stores a
fresh present session, so once logged in the client never returns to the
logged-out state. -/
theorem C7_session_monotone :
    (∀ (server : Server) (op : Op) (st : ClientState),
      (stepOp server op st).session = st.session ∨
      ∃ s, (stepOp server op st).session = some s) ∧
    (∀ (server : Server) (ops : List Op) (st : ClientState),
      st.session.isSome = true →
        (runOps server ops st).session.isSome = true) := by
  constructor
  · intro server op st
    rcases (stepOp_config_session server op st).2 with h | ⟨s, hs, _⟩
    · exact .inl h
    · exact .inr ⟨s, hs⟩
  · exact runOps_session_isSome

/-- Witness for C7's theorem: a logged-in client stays logged in through a
failing re-login and a failing endpoint call. -/
theorem C7_witness :
    stLogged.session.isSome = true
    ∧ (runOps srv500 [.loginOp, .studentsOp] stLogged).session.isSome
      = true :=
  ⟨rfl, C7_session_monotone.2 srv500 [.loginOp, .studentsOp] stLogged rfl⟩

/-- C8 (confirmed): no operation — login, ensure_logged_in, the generic
request helper, or any endpoint wrapper — changes the client configuration;
only the cookie jar and the session are ever mutated. -/
theorem C8_config_immutable (server : Server) (op : Op) (st : ClientState) :
    (stepOp server op st).config = st.config :=
  (stepOp_config_session server op st).1

/-- C9 (confirmed): whenever `login()` raises `LoginError`, the stored
session and the cookie jar are exactly as they were before the call. -/
theorem C9_login_failure_atomic (server : Server) (st : ClientState)
    (msg : String)
    (h : (login server st).outcome = .error (.loginError msg)) :
    (login server st).state = st
    ∧ (login server st).state.session = st.session
    ∧ (login server st).state.cookies = st.cookies := by
  have hst : (login server st).state = st := by
    apply login_state_of_error
    rw [h]
    rfl
  exact ⟨hst, by rw [hst], by rw [hst]⟩

/-- Witness for C9's theorem: a failed re-login against a 500 portal leaves
the previously established session live. -/
theorem C9_witness :
    (login srv500 stLogged).outcome
      = .error (.loginError "Login failed (500): Server Error")
    ∧ (login srv500 stLogged).state = stLogged
    ∧ stLogged.session = some sessA :=
  ⟨rfl, (C9_login_failure_atomic srv500 stLogged _ rfl).1, rfl⟩

/-- C10 (amended): a 2xx login response with `status: true` whose `data` is
null/missing, or whose `data.token` is missing, null or the empty string,
makes `login()` raise `LoginError` (no crash); a fresh client satisfies the
token invariant and every operation preserves it: any stored session's
token is truthy (non-null, non-empty, non-zero, non-false). -/
theorem C10_token_truthy_invariant :
    (∀ (server : Server) (st : ClientState) (bf : List (String × Json)),
      (server (loginRequest st)).status_code < 400 →
      (server (loginRequest st)).json = some (.obj bf) →
      dictGet bf "status" = .bool true →
      (dictGet bf "data" = .null ∨
        ∃ dfs, dictGet bf "data" = .obj dfs ∧
          (dictGet dfs "token" = .null ∨ dictGet dfs "token" = .str "")) →
      (login server st).outcome
        = .error (.loginError "Login succeeded but data.token is missing")) ∧
    (∀ u p, tokenInvB (mkClient u p) = true) ∧
    (∀ (server : Server) (ops : List Op) (st : ClientState),
      tokenInvB st = true → tokenInvB (runOps server ops st) = true) := by
  refine ⟨?_, fun u p => rfl, runOps_tokenInv⟩
  intro server st bf h1 h2 h3 h4
  rcases h4 with hnull | ⟨dfs, hdfs, htok⟩
  · have h5 : pyOr (dictGet bf "data") (Json.obj []) = Json.obj [] := by
      unfold pyOr
      rw [hnull]
      rfl
    refine login_token_missing server st bf h1 h2 h3 ⟨[], h5⟩ ?_
    intro dfs0 hd
    rw [h5] at hd
    injection hd with hh
    subst hh
    rfl
  · cases dfs with
    | nil =>
      have h5 : pyOr (dictGet bf "data") (Json.obj []) = Json.obj [] := by
        unfold pyOr
        rw [hdfs]
        rfl
      refine login_token_missing server st bf h1 h2 h3 ⟨[], h5⟩ ?_
      intro dfs0 hd
      rw [h5] at hd
      injection hd with hh
      subst hh
      rfl
    | cons hdx tlx =>
      have h5 : pyOr (dictGet bf "data") (Json.obj []) = Json.obj (hdx :: tlx)
          := by
        unfold pyOr
        rw [hdfs]
        rfl
      refine login_token_missing server st bf h1 h2 h3 ⟨hdx :: tlx, h5⟩ ?_
      intro dfs0 hd
      rw [h5] at hd
      injection hd with hh
      subst hh
      rcases htok with htk | htk <;> rw [htk] <;> rfl

/-- Witness for C10's theorem at the empty-string-token response. -/
theorem C10_witness :
    (login srvTokenEmpty stFresh).outcome
      = .error (.loginError "Login succeeded but data.token is missing")
    ∧ tokenInvB stFresh = true :=
  ⟨C10_token_truthy_invariant.1 srvTokenEmpty stFresh _ (by decide) rfl rfl
      (.inr ⟨_, rfl, .inr rfl⟩),
    rfl⟩

/-- C10 as stated is false: a login response whose `data.token` is the JSON
number 5 (truthy, not a string) is accepted, reaching a state whose stored
session exists but whose token is not a non-empty string. -/
theorem C10_counterexample :
    (login srvTokenNum stFresh).state.session.isSome = true
    ∧ tokenIsNonemptyStr (login srvTokenNum stFresh).state = false
    ∧ (login srvTokenNum stFresh).state.session.map WebtopSession.token
      = some (.num 5) :=
  ⟨rfl, rfl, rfl⟩

/-- C1 (confirmed): a login response with HTTP status < 400 whose body is a
JSON object with `status` literally true and a non-empty string token `T`
under `data` makes `login()` return a session with token `T` and the other
fields read from the `data` object, store it (replacing any prior session),
set cookie `webToken = T`, issue exactly one request, and leave every
subsequent authenticated request carrying a cookie jar whose `webToken`
is `T`. -/
theorem C1_login_success (server : Server) (st : ClientState)
    (bf dfs : List (String × Json)) (T : String)
    (hstatus : (server (loginRequest st)).status_code < 400)
    (hjson : (server (loginRequest st)).json = some (.obj bf))
    (hflag : dictGet bf "status" = .bool true)
    (hdata : dictGet bf "data" = .obj dfs)
    (htok : dictGet dfs "token" = .str T)
    (hT : T ≠ "") :
    (login server st).outcome
      = .ok { token := .str T, user_id := dictGet dfs "userId",
              student_id := dictGet dfs "studentId",
              school_id := dictGet dfs "schoolId",
              school_name := dictGet dfs "schoolName",
              first_name := dictGet dfs "firstName",
              last_name := dictGet dfs "lastName",
              raw_login_data := .obj dfs }
    ∧ (login server st).state
      = { config := st.config,
          cookies := cookieSet st.cookies "webToken" (.str T),
          session := some
            { token := .str T, user_id := dictGet dfs "userId",
              student_id := dictGet dfs "studentId",
              school_id := dictGet dfs "schoolId",
              school_name := dictGet dfs "schoolName",
              first_name := dictGet dfs "firstName",
              last_name := dictGet dfs "lastName",
              raw_login_data := .obj dfs } }
    ∧ (login server st).calls = [loginRequest st]
    ∧ cookieLookup (login server st).state.cookies "webToken"
      = some (.str T)
    ∧ (∀ (m p : String) (hd : List (String × String)) (b : Json),
        (request server (login server st).state m p hd b).calls
          = [⟨m, p, hd, b, (login server st).state.cookies⟩]
        ∧ cookieLookup (login server st).state.cookies "webToken"
          = some (.str T)) := by
  have hdfs_ne : truthy (Json.obj dfs) = true := by
    cases dfs with
    | nil => simp [dictGet, List.lookup] at htok
    | cons a l => rfl
  have hTt : truthy (Json.str T) = true := by
    simp [truthy, hT]
  have hpyor : pyOr (dictGet bf "data") (Json.obj []) = Json.obj dfs := by
    unfold pyOr
    rw [hdata, if_pos hdfs_ne]
  have hmain : login server st
      = ⟨.ok { token := .str T, user_id := dictGet dfs "userId",
               student_id := dictGet dfs "studentId",
               school_id := dictGet dfs "schoolId",
               school_name := dictGet dfs "schoolName",
               first_name := dictGet dfs "firstName",
               last_name := dictGet dfs "lastName",
               raw_login_data := .obj dfs },
         { config := st.config,
           cookies := cookieSet st.cookies "webToken" (.str T),
           session := some
             { token := .str T, user_id := dictGet dfs "userId",
               student_id := dictGet dfs "studentId",
               school_id := dictGet dfs "schoolId",
               school_name := dictGet dfs "schoolName",
               first_name := dictGet dfs "firstName",
               last_name := dictGet dfs "lastName",
               raw_login_data := .obj dfs } },
         [loginRequest st]⟩ := by
    unfold login
    dsimp only
    rw [if_neg (Nat.not_le.mpr hstatus), hjson]
    dsimp only
    rw [hflag]
    dsimp only
    rw [hpyor]
    dsimp only
    rw [htok, hTt]
    rfl
  refine ⟨by rw [hmain], by rw [hmain], login_calls server st, ?_, ?_⟩
  · rw [hmain]
    exact cookieLookup_set st.cookies "webToken" (.str T)
  · intro m p hd b
    constructor
    · exact request_calls_of_some server (login server st).state _ m p hd b
        (by rw [hmain])
    · rw [hmain]
      exact cookieLookup_set st.cookies "webToken" (.str T)

/-- Witness for C1's theorem at the concrete scenario response
(`token "T1"`, `firstName "Jane"`). -/
theorem C1_witness :
    (goodServer (loginRequest stFresh)).status_code < 400
    ∧ (login goodServer stFresh).outcome
      = .ok { token := .str "T1", user_id := .str "U1",
              student_id := .null, school_id := .null, school_name := .null,
              first_name := .str "Jane", last_name := .str "Doe",
              raw_login_data := .obj dataGood }
    ∧ cookieLookup (login goodServer stFresh).state.cookies "webToken"
      = some (.str "T1") :=
  have h := C1_login_success goodServer stFresh
    [("status", .bool true), ("data", .obj dataGood)] dataGood "T1"
    (by decide) rfl rfl rfl rfl (by decide)
  ⟨by decide, h.1, h.2.2.2.1⟩

/-- C2 (amended): `login()` raises `LoginError` exactly on: HTTP status
≥ 400; a body that does not parse as JSON; a JSON-object body whose
`status` field is not literally true; or `status` literally true with a
missing or otherwise falsy `data.token` — in that last case the message is
the token-missing message, which mentions "token". It succeeds when the
effective `data` is an object with a truthy token. A parsed body (or a
truthy `data` field) that is not a JSON object raises an uncaught
`AttributeError` (a type error), not `LoginError`. -/
theorem C2_login_error_conditions (server : Server) (st : ClientState) :
    (400 ≤ (server (loginRequest st)).status_code →
      isLoginErr (login server st).outcome = true) ∧
    ((server (loginRequest st)).status_code < 400 →
      (server (loginRequest st)).json = none →
      isLoginErr (login server st).outcome = true) ∧
    (∀ bf, (server (loginRequest st)).status_code < 400 →
      (server (loginRequest st)).json = some (.obj bf) →
      dictGet bf "status" ≠ .bool true →
      isLoginErr (login server st).outcome = true) ∧
    (∀ bf dfs, (server (loginRequest st)).status_code < 400 →
      (server (loginRequest st)).json = some (.obj bf) →
      dictGet bf "status" = .bool true →
      pyOr (dictGet bf "data") (Json.obj []) = .obj dfs →
      truthy (dictGet dfs "token") = false →
      (login server st).outcome
        = .error (.loginError "Login succeeded but data.token is missing")
      ∧ containsSub "Login succeeded but data.token is missing" "token"
        = true) ∧
    (∀ bf dfs, (server (loginRequest st)).status_code < 400 →
      (server (loginRequest st)).json = some (.obj bf) →
      dictGet bf "status" = .bool true →
      pyOr (dictGet bf "data") (Json.obj []) = .obj dfs →
      truthy (dictGet dfs "token") = true →
      isOk (login server st).outcome = true) ∧
    (∀ b, (server (loginRequest st)).status_code < 400 →
      (server (loginRequest st)).json = some b →
      (∀ bf, b ≠ Json.obj bf) →
      (login server st).outcome
        = .error (.attributeError "body.get: body is not a dict")) ∧
    (∀ bf, (server (loginRequest st)).status_code < 400 →
      (server (loginRequest st)).json = some (.obj bf) →
      dictGet bf "status" = .bool true →
      (∀ dfs, pyOr (dictGet bf "data") (Json.obj []) ≠ .obj dfs) →
      (login server st).outcome
        = .error (.attributeError "data.get: data is not a dict")) := by
  refine ⟨?_, ?_, ?_, ?_, ?_, ?_, ?_⟩
  · intro h
    unfold login
    dsimp only
    rw [if_pos h]
    rfl
  · intro h1 hn
    unfold login
    dsimp only
    rw [if_neg (Nat.not_le.mpr h1), hn]
    rfl
  · intro bf h1 h2 h3
    unfold login
    dsimp only
    rw [if_neg (Nat.not_le.mpr h1), h2]
    dsimp only
    cases hsv : dictGet bf "status" with
    | bool b =>
      cases b
      · rfl
      · exact absurd hsv h3
    | null => rfl
    | num n => rfl
    | str sv => rfl
    | arr l => rfl
    | obj l => rfl
  · intro bf dfs h1 h2 h3 h4 h5
    refine ⟨?_, by decide⟩
    refine login_token_missing server st bf h1 h2 h3 ⟨dfs, h4⟩ ?_
    intro d hd
    rw [h4] at hd
    injection hd with hh
    subst hh
    exact h5
  · intro bf dfs h1 h2 h3 h4 h5
    unfold login
    dsimp only
    rw [if_neg (Nat.not_le.mpr h1), h2]
    dsimp only
    rw [h3]
    dsimp only
    rw [h4]
    dsimp only
    rw [h5]
    rfl
  · intro b h1 h2 hnb
    unfold login
    dsimp only
    rw [if_neg (Nat.not_le.mpr h1), h2]
    cases b with
    | obj bf => exact absurd rfl (hnb bf)
    | null => rfl
    | bool bb => rfl
    | num n => rfl
    | str sv => rfl
    | arr l => rfl
  · intro bf h1 h2 h3 hnd
    unfold login
    dsimp only
    rw [if_neg (Nat.not_le.mpr h1), h2]
    dsimp only
    rw [h3]
    dsimp only
    split
    · rename_i dfs hmatch
      exact absurd hmatch (hnd dfs)
    · rfl

/-- Witness for C2's theorem: the token-falsy clause at the concrete
empty-token response. -/
theorem C2_witness :
    (login srvTokenEmpty stFresh).outcome
      = .error (.loginError "Login succeeded but data.token is missing")
    ∧ containsSub "Login succeeded but data.token is missing" "token"
      = true :=
  (C2_login_error_conditions srvTokenEmpty stFresh).2.2.2.1
    [("status", .bool true), ("data", .obj [("token", .str "")])]
    [("token", .str "")] (by decide) rfl rfl rfl rfl

/-- C2 as stated is false at two concrete inputs: a 200 response whose body
has `status: true` and a present-but-empty `token` field raises
`LoginError` although none of the claim's four conditions holds, and a 200
response whose body is a JSON array raises an `AttributeError` (not
`LoginError`) although the claim admits only `LoginError` failures. -/
theorem C2_counterexample :
    ((srvTokenEmpty (loginRequest stFresh)).status_code = 200
      ∧ (srvTokenEmpty (loginRequest stFresh)).json
        = some (.obj [("status", .bool true),
                      ("data", .obj [("token", .str "")])])
      ∧ dictGet [("token", Json.str "")] "token" = .str ""
      ∧ (login srvTokenEmpty stFresh).outcome
        = .error (.loginError "Login succeeded but data.token is missing"))
    ∧ ((srvArrBody (loginRequest stFresh)).status_code = 200
      ∧ (srvArrBody (loginRequest stFresh)).json = some (.arr [.num 1])
      ∧ (login srvArrBody stFresh).outcome
        = .error (.attributeError "body.get: body is not a dict")
      ∧ isLoginErr (login srvArrBody stFresh).outcome = false) :=
  ⟨⟨rfl, rfl, rfl, rfl⟩, ⟨rfl, rfl, rfl, rfl⟩⟩

/-- C6 (confirmed): `get_messages_inbox()` with no arguments posts to
`/server/api/messageBox/GetMessagesInbox` exactly the body
`PageId 1, LabelId 0, HasRead null, SearchQuery ""` and returns the parsed
JSON response body. -/
theorem C6_messages_inbox_defaults (server : Server) (st : ClientState)
    (s : WebtopSession) (j : Json) (hs : st.session = some s)
    (hok : (server ⟨"POST", "/server/api/messageBox/GetMessagesInbox", [],
        .obj [("PageId", .num 1), ("LabelId", .num 0), ("HasRead", .null),
              ("SearchQuery", .str "")], st.cookies⟩).status_code < 400)
    (hj : (server ⟨"POST", "/server/api/messageBox/GetMessagesInbox", [],
        .obj [("PageId", .num 1), ("LabelId", .num 0), ("HasRead", .null),
              ("SearchQuery", .str "")], st.cookies⟩).json = some j) :
    get_messages_inbox server st
      = ⟨.ok j, st,
         [⟨"POST", "/server/api/messageBox/GetMessagesInbox", [],
           .obj [("PageId", .num 1), ("LabelId", .num 0), ("HasRead", .null),
                 ("SearchQuery", .str "")], st.cookies⟩]⟩ := by
  unfold get_messages_inbox
  rw [show optBoolJson none = Json.null from rfl]
  rw [request_ok server st s "POST" "/server/api/messageBox/GetMessagesInbox"
    [] (.obj [("PageId", .num 1), ("LabelId", .num 0), ("HasRead", .null),
              ("SearchQuery", .str "")]) hs hok]
  unfold respJson
  dsimp only
  rw [hj]

/-- Witness for C6's theorem: the logged-in client against `goodServer`. -/
theorem C6_witness :
    stLogged.session = some sessA
    ∧ get_messages_inbox goodServer stLogged
      = ⟨.ok bodyGood, stLogged,
         [⟨"POST", "/server/api/messageBox/GetMessagesInbox", [],
           .obj [("PageId", .num 1), ("LabelId", .num 0), ("HasRead", .null),
                 ("SearchQuery", .str "")], stLogged.cookies⟩]⟩ :=
  ⟨rfl, C6_messages_inbox_defaults goodServer stLogged sessA bodyGood rfl
    (by decide) rfl⟩

end Webtop
